import Mathlib

set_option maxHeartbeats 1000000

/-!
Verification of the two PISM utility scripts
`examples/pddtune/objective.py` and `util/create_timeline.py`,
via a shallow embedding of their logic in Lean.

Python floats are modelled by exact rationals (ℚ), Python ints by ℕ.
-/

/-! Embedding of the accumulation loop of `objective.py` (lines 81-99).

The five accumulators `sumdiff`, `sumL2`, `sum2kL2`, `countvalid`,
`count2k` are collected in a structure; `stepCell` is the body of the
double loop for one grid cell; `scanGrid` is the double loop itself,
iterating over `range Mx` x `range My`. -/

structure ObjAcc where
  sumdiff : ℚ
  sumL2 : ℚ
  sum2kL2 : ℚ
  countvalid : ℕ
  count2k : ℕ
deriving DecidableEq, Repr

/-- Body of the loop of `objective.py` lines 88-95 for one cell:
`thk` the thickness value, `pv` the first compared value, `rv` the
second compared value. -/
def stepCell (thk pv rv : ℚ) (s : ObjAcc) : ObjAcc :=
  if thk > 1 then
    let diff_vars := pv - rv
    let s1 : ObjAcc :=
      { s with countvalid := s.countvalid + 1,
               sumdiff := s.sumdiff + diff_vars,
               sumL2 := s.sumL2 + diff_vars * diff_vars }
    if thk < 2000 then
      { s1 with count2k := s1.count2k + 1,
                sum2kL2 := s1.sum2kL2 + diff_vars * diff_vars }
    else s1
  else s

/-- The double loop of `objective.py` lines 86-95 starting from the
zero accumulators of lines 81-85. -/
def scanGrid (Mx My : ℕ) (thk pv rv : ℕ → ℕ → ℚ) : ObjAcc :=
  (List.range Mx).foldl
    (fun s i => (List.range My).foldl
      (fun s j => stepCell (thk i j) (pv i j) (rv i j) s) s)
    ⟨0, 0, 0, 0, 0⟩

/-- `objective.py` line 97: `avdiff = sumdiff / double(countvalid)`. -/
def avdiff (s : ObjAcc) : ℚ := s.sumdiff / (s.countvalid : ℚ)

/-- `objective.py` line 98: `avL2 = sumL2 / double(countvalid)`. -/
def avL2 (s : ObjAcc) : ℚ := s.sumL2 / (s.countvalid : ℚ)

/-- `objective.py` line 99: `av2kL2 = sum2kL2 / double(count2k)`. -/
def av2kL2 (s : ObjAcc) : ℚ := s.sum2kL2 / (s.count2k : ℚ)

/-- A fold preserves any invariant preserved by its step function. -/
theorem foldl_pres {α β : Type _} (P : α → Prop) (g : α → β → α)
    (hg : ∀ s x, P s → P (g s x)) :
    ∀ (l : List β) (s : α), P s → P (l.foldl g s) := by
  intro l
  induction l with
  | nil => intro s hs; exact hs
  | cons a t ih => intro s hs; exact ih (g s a) (hg s a hs)

/-- A map commuting with the step functions commutes with the folds. -/
theorem foldl_hom {α β : Type _} (h : α → α) (g g' : α → β → α)
    (hc : ∀ s x, g' (h s) x = h (g s x)) :
    ∀ (l : List β) (s : α), l.foldl g' (h s) = h (l.foldl g s) := by
  intro l
  induction l with
  | nil => intro s; rfl
  | cons a t ih =>
    intro s
    rw [List.foldl_cons, List.foldl_cons, hc, ih]

/-- Invariants preserved by `stepCell` hold of the whole scan. -/
theorem scanGrid_pres (P : ObjAcc → Prop) (Mx My : ℕ)
    (thk pv rv : ℕ → ℕ → ℚ)
    (h0 : P ⟨0, 0, 0, 0, 0⟩)
    (hstep : ∀ i j s, P s → P (stepCell (thk i j) (pv i j) (rv i j) s)) :
    P (scanGrid Mx My thk pv rv) := by
  unfold scanGrid
  refine foldl_pres P _ ?_ (List.range Mx) ⟨0, 0, 0, 0, 0⟩ h0
  intro s i hs
  exact foldl_pres P _ (fun s j hs => hstep i j s hs) (List.range My) s hs

/-- Negating the `sumdiff` accumulator only. -/
def negDiff (s : ObjAcc) : ObjAcc := { s with sumdiff := -s.sumdiff }

theorem stepCell_swap (t x y : ℚ) (s : ObjAcc) :
    stepCell t y x (negDiff s) = negDiff (stepCell t x y s) := by
  unfold stepCell negDiff
  by_cases h1 : t > 1
  · by_cases h2 : t < 2000
    · simp only [h1, h2, if_true]
      congr 1 <;> ring
    · simp only [h1, h2, if_true, if_false]
      congr 1 <;> ring
  · simp only [h1, if_false]

/-- Exchanging the two compared grids maps the scan through `negDiff`. -/
theorem scanGrid_swap (Mx My : ℕ) (thk pv rv : ℕ → ℕ → ℚ) :
    scanGrid Mx My thk rv pv = negDiff (scanGrid Mx My thk pv rv) := by
  unfold scanGrid
  have hinner : ∀ (i : ℕ) (s : ObjAcc),
      (List.range My).foldl
        (fun s j => stepCell (thk i j) (rv i j) (pv i j) s) (negDiff s)
      = negDiff ((List.range My).foldl
        (fun s j => stepCell (thk i j) (pv i j) (rv i j) s) s) :=
    fun i s => foldl_hom negDiff _ _
      (fun s j => stepCell_swap (thk i j) (pv i j) (rv i j) s) (List.range My) s
  have hz : (⟨0, 0, 0, 0, 0⟩ : ObjAcc) = negDiff ⟨0, 0, 0, 0, 0⟩ := by
    simp [negDiff]
  rw [hz]
  exact foldl_hom negDiff _ _ (fun s i => hinner i s) (List.range Mx) ⟨0, 0, 0, 0, 0⟩

/-- Claim C4: for every triple of grids, the sub-region count never
exceeds the full-region valid count, and a cell contributes to the
sub-region count and sub-region squared sum exactly when its thickness
satisfies both `thk > 1.0` and `thk < 2000.0`. -/
theorem objective_subregion_partition (Mx My : ℕ) (thk pv rv : ℕ → ℕ → ℚ)
    (t x y : ℚ) (s : ObjAcc) :
    (scanGrid Mx My thk pv rv).count2k ≤ (scanGrid Mx My thk pv rv).countvalid ∧
    (stepCell t x y s).count2k
      = s.count2k + (if t > 1 ∧ t < 2000 then 1 else 0) ∧
    (stepCell t x y s).sum2kL2
      = s.sum2kL2 + (if t > 1 ∧ t < 2000 then (x - y) * (x - y) else 0) := by
  refine ⟨?_, ?_, ?_⟩
  · refine scanGrid_pres (fun s => s.count2k ≤ s.countvalid) Mx My thk pv rv
      (le_refl 0) ?_
    intro i j s hs
    unfold stepCell
    by_cases h1 : thk i j > 1
    · by_cases h2 : thk i j < 2000 <;> simp [h1, h2] <;> omega
    · simpa [h1] using hs
  · unfold stepCell
    by_cases h1 : t > 1
    · by_cases h2 : t < 2000 <;> simp [h1, h2]
    · simp [h1]
  · unfold stepCell
    by_cases h1 : t > 1
    · by_cases h2 : t < 2000 <;> simp [h1, h2]
    · simp [h1]

/-- Claim C5: exchanging the two compared variable sources negates the
average signed difference and leaves both average squared differences
unchanged (given at least one valid cell and one sub-region cell). -/
theorem objective_swap_symmetry (Mx My : ℕ) (thk pv rv : ℕ → ℕ → ℚ)
    (h1 : 1 ≤ (scanGrid Mx My thk pv rv).countvalid)
    (h2 : 1 ≤ (scanGrid Mx My thk pv rv).count2k) :
    avdiff (scanGrid Mx My thk rv pv) = - avdiff (scanGrid Mx My thk pv rv) ∧
    avL2 (scanGrid Mx My thk rv pv) = avL2 (scanGrid Mx My thk pv rv) ∧
    av2kL2 (scanGrid Mx My thk rv pv) = av2kL2 (scanGrid Mx My thk pv rv) := by
  rw [scanGrid_swap]
  refine ⟨?_, rfl, rfl⟩
  unfold avdiff negDiff
  simp [neg_div]

theorem objective_swap_symmetry_witness :
    avdiff (scanGrid 1 1 (fun _ _ => 100) (fun _ _ => (2 : ℚ)) (fun _ _ => 5))
      = - avdiff (scanGrid 1 1 (fun _ _ => 100) (fun _ _ => (5 : ℚ)) (fun _ _ => 2)) ∧
    avL2 (scanGrid 1 1 (fun _ _ => 100) (fun _ _ => (2 : ℚ)) (fun _ _ => 5))
      = avL2 (scanGrid 1 1 (fun _ _ => 100) (fun _ _ => (5 : ℚ)) (fun _ _ => 2)) ∧
    av2kL2 (scanGrid 1 1 (fun _ _ => 100) (fun _ _ => (2 : ℚ)) (fun _ _ => 5))
      = av2kL2 (scanGrid 1 1 (fun _ _ => 100) (fun _ _ => (5 : ℚ)) (fun _ _ => 2)) :=
  objective_swap_symmetry 1 1 (fun _ _ => 100) (fun _ _ => 5) (fun _ _ => 2)
    (by decide) (by decide)

/-- Claim C6: if the two compared grids agree cell for cell then all
three output statistics are exactly zero (given at least one valid cell
and one sub-region cell). -/
theorem objective_identical_zero (Mx My : ℕ) (thk pv rv : ℕ → ℕ → ℚ)
    (heq : ∀ i j, pv i j = rv i j)
    (h1 : 1 ≤ (scanGrid Mx My thk pv rv).countvalid)
    (h2 : 1 ≤ (scanGrid Mx My thk pv rv).count2k) :
    avdiff (scanGrid Mx My thk pv rv) = 0 ∧
    avL2 (scanGrid Mx My thk pv rv) = 0 ∧
    av2kL2 (scanGrid Mx My thk pv rv) = 0 := by
  have hz : (scanGrid Mx My thk pv rv).sumdiff = 0 ∧
      (scanGrid Mx My thk pv rv).sumL2 = 0 ∧
      (scanGrid Mx My thk pv rv).sum2kL2 = 0 := by
    refine scanGrid_pres
      (fun s => s.sumdiff = 0 ∧ s.sumL2 = 0 ∧ s.sum2kL2 = 0)
      Mx My thk pv rv ⟨rfl, rfl, rfl⟩ ?_
    intro i j s hs
    unfold stepCell
    rw [heq i j]
    by_cases ha : thk i j > 1
    · by_cases hb : thk i j < 2000 <;>
        simp [ha, hb, hs.1, hs.2.1, hs.2.2]
    · simpa [ha] using hs
  refine ⟨?_, ?_, ?_⟩
  · unfold avdiff; rw [hz.1]; exact zero_div _
  · unfold avL2; rw [hz.2.1]; exact zero_div _
  · unfold av2kL2; rw [hz.2.2]; exact zero_div _

theorem objective_identical_zero_witness :
    avdiff (scanGrid 1 1 (fun _ _ => 100) (fun _ _ => (7 : ℚ)) (fun _ _ => 7)) = 0 ∧
    avL2 (scanGrid 1 1 (fun _ _ => 100) (fun _ _ => (7 : ℚ)) (fun _ _ => 7)) = 0 ∧
    av2kL2 (scanGrid 1 1 (fun _ _ => 100) (fun _ _ => (7 : ℚ)) (fun _ _ => 7)) = 0 :=
  objective_identical_zero 1 1 (fun _ _ => 100) (fun _ _ => 7) (fun _ _ => 7)
    (fun _ _ => rfl) (by decide) (by decide)

/-- Claim C10: with at least one valid cell and one sub-region cell,
the whole-region and sub-region average squared differences are
nonnegative, every contribution being a square and every divisor a
positive count. -/
theorem objective_squared_nonneg (Mx My : ℕ) (thk pv rv : ℕ → ℕ → ℚ)
    (h1 : 1 ≤ (scanGrid Mx My thk pv rv).countvalid)
    (h2 : 1 ≤ (scanGrid Mx My thk pv rv).count2k) :
    0 ≤ avL2 (scanGrid Mx My thk pv rv) ∧
    0 ≤ av2kL2 (scanGrid Mx My thk pv rv) := by
  have hs : 0 ≤ (scanGrid Mx My thk pv rv).sumL2 ∧
      0 ≤ (scanGrid Mx My thk pv rv).sum2kL2 := by
    refine scanGrid_pres (fun s => 0 ≤ s.sumL2 ∧ 0 ≤ s.sum2kL2)
      Mx My thk pv rv ⟨le_refl 0, le_refl 0⟩ ?_
    intro i j s hsub
    unfold stepCell
    by_cases ha : thk i j > 1
    · by_cases hb : thk i j < 2000 <;>
        · simp only [ha, hb, if_true, if_false]
          constructor <;>
            first
              | exact add_nonneg hsub.1 (mul_self_nonneg _)
              | exact add_nonneg hsub.2 (mul_self_nonneg _)
              | exact hsub.1
              | exact hsub.2
    · simpa [ha] using hsub
  exact ⟨div_nonneg hs.1 (Nat.cast_nonneg _), div_nonneg hs.2 (Nat.cast_nonneg _)⟩

theorem objective_squared_nonneg_witness :
    0 ≤ avL2 (scanGrid 1 1 (fun _ _ => 100) (fun _ _ => (3 : ℚ)) (fun _ _ => 1)) ∧
    0 ≤ av2kL2 (scanGrid 1 1 (fun _ _ => 100) (fun _ _ => (3 : ℚ)) (fun _ _ => 1)) :=
  objective_squared_nonneg 1 1 (fun _ _ => 100) (fun _ _ => 3) (fun _ _ => 1)
    (by decide) (by decide)

/-! Run-level embedding of `objective.py` (lines 29-115).

The getopt parse result, the openability of files, and the grid data
read from the three datasets are oracle inputs; the control flow,
checks, exits, and output effects are translated from the script. -/

/-- Python `s.split(sep)` on the character list of a string. -/
def splitChar (sep : Char) : List Char → List (List Char)
  | [] => [[]]
  | c :: rest =>
    let r := splitChar sep rest
    if c = sep then [] :: r
    else
      match r with
      | [] => [[c]]
      | h :: t => (c :: h) :: t

/-- Python `str.split` with a one-character separator, as used by
`optarg.split(",")` in `objective.py` line 37. -/
def pySplit (sep : Char) (s : String) : List String :=
  (splitChar sep s.data).map (fun cs => String.mk cs)

/-- The value of the last occurrence of option `key`: the getopt loop
of `objective.py` lines 35-42 overwrites on each occurrence, so the
last one wins. -/
def lastOpt (opts : List (String × String)) (key : String) : Option String :=
  ((opts.filter (fun o => decide (o.1 = key))).getLast?).map (fun o => o.2)

/-- `dovars` as computed by `objective.py` lines 34-37: empty unless
`-v` was given, else the comma-split of the last `-v` argument. -/
def dovarsOf (opts : List (String × String)) : List String :=
  match lastOpt opts "-v" with
  | some v => pySplit ',' v
  | none => []

/-- Whether the option list contains `--help` or `--usage`
(`objective.py` lines 40-42: prints usage and exits 0). -/
def helpRequested (opts : List (String × String)) : Bool :=
  opts.any (fun o => decide (o.1 = "--help") || decide (o.1 = "--usage"))

/-- The fixed-precision rendering `"%12.7f"` used for every numeric
field of the output of `objective.py`: seven decimal digits,
right-justified to width 12. -/
def fmtF127 (q : ℚ) : String :=
  let n : ℕ := (Int.floor (|q| * 10000000 + 1 / 2)).toNat
  let ip := n / 10000000
  let fp := n % 10000000
  let fpStr := toString fp
  let fpPad := String.mk (List.replicate (7 - fpStr.length) '0') ++ fpStr
  let core := (if q < 0 then "-" else "") ++ toString ip ++ "." ++ fpPad
  String.mk (List.replicate (12 - core.length) ' ') ++ core

/-- The output line of `objective.py` line 114:
`"%s %12.7f %12.7f %12.7f\n" % (args[0], avdiff, avL2, av2kL2)`. -/
def formatLine (label : String) (a l k : ℚ) : String :=
  label ++ " " ++ fmtF127 a ++ " " ++ fmtF127 l ++ " " ++ fmtF127 k ++ "\n"

/-- The result lines printed to stdout by `objective.py`
lines 105-108. -/
def reportLines (s : ObjAcc) : List String :=
  [ "  " ++ toString s.countvalid ++ " locations for valid (thk>0) comparison:",
    "    average of signed differences (whole sheet) is  " ++ fmtF127 (avdiff s),
    "    average of squared differences (whole sheet) is " ++ fmtF127 (avL2 s),
    "    average of squared differences (H < 2000) is    " ++ fmtF127 (av2kL2 s) ]

/-- Appending a string to one file of a filesystem (modelled as a map
from paths to contents): `file(path, 'a')` followed by `write`. -/
def appendTo (fs : String → String) (path s : String) : String → String :=
  fun p => if p = path then fs p ++ s else fs p

/-- Positional argument access `args[i]` of the Python script (the
script only indexes positions its length checks have established). -/
def argN (args : List String) (i : ℕ) : String := args.getD i ""

/-- Oracle inputs of one run of `objective.py`: the getopt result
(`none` models a `GetoptError`), which paths open successfully, and
the (already squeezed) grids with their common shape. -/
structure ObjInput where
  parsed : Option (List (String × String) × List String)
  openOK : String → Bool
  Mx : ℕ
  My : ℕ
  thk : ℕ → ℕ → ℚ
  pv : ℕ → ℕ → ℚ
  rv : ℕ → ℕ → ℚ

/-- Observable outcome of one run of `objective.py`. -/
inductive ObjOutcome where
  | exitUsage (msg : String)
  | exitHelp
  | crash
  | done (report : List String) (written : Option (String × String))

/-- Process exit status of an outcome: `usagefailure` calls `exit(2)`,
`--help` calls `exit(0)`, an uncaught exception exits 1, and a normal
run exits 0. -/
def ObjOutcome.exitCode : ObjOutcome → ℕ
  | .exitUsage _ => 2
  | .exitHelp => 0
  | .crash => 1
  | .done _ _ => 0

/-- Whether the outcome printed the usage text. -/
def ObjOutcome.printsUsage : ObjOutcome → Bool
  | .exitUsage _ => true
  | .exitHelp => true
  | _ => false

/-- Whether the run completed normally and produced its result. -/
def ObjOutcome.isDone : ObjOutcome → Bool
  | .done _ _ => true
  | _ => false

/-- Whether the run failed (usage failure or uncaught exception). -/
def ObjOutcome.isFailure : ObjOutcome → Bool
  | .exitUsage _ => true
  | .crash => true
  | _ => false

/-- One run of `objective.py` over a filesystem, returning the outcome
and the filesystem after the run.  Mirrors lines 29-115: getopt
failure, the option loop, the two argument-count checks, the three
file-open checks in order, the scan, and the final optional append to
`args[2]`. -/
def objectiveRun (inp : ObjInput) (fs : String → String) :
    ObjOutcome × (String → String) :=
  match inp.parsed with
  | none =>
    (ObjOutcome.exitUsage "ERROR: INCORRECT COMMAND LINE ARGUMENTS FOR objective.py", fs)
  | some (opts, args) =>
    if helpRequested opts then (ObjOutcome.exitHelp, fs)
    else if args.length < 2 ∨ 3 < args.length then
      (ObjOutcome.exitUsage "ERROR: objective.py requires two or three file names", fs)
    else if (dovarsOf opts).length ≠ 2 then
      (ObjOutcome.exitUsage "ERROR: -v option for objective.py requires exactly two variable names", fs)
    else
      match lastOpt opts "-H" with
      | none => (ObjOutcome.crash, fs)
      | some thkfile =>
        if inp.openOK thkfile then
          if inp.openOK (argN args 0) then
            if inp.openOK (argN args 1) then
              let s := scanGrid inp.Mx inp.My inp.thk inp.pv inp.rv
              let line := formatLine (argN args 0) (avdiff s) (avL2 s) (av2kL2 s)
              if 3 ≤ args.length then
                (ObjOutcome.done (reportLines s) (some (argN args 2, line)),
                 appendTo fs (argN args 2) line)
              else
                (ObjOutcome.done (reportLines s) none, fs)
            else
              (ObjOutcome.exitUsage ("ERROR: FILE " ++ argN args 1 ++ " CANNOT BE OPENED FOR READING"), fs)
          else
            (ObjOutcome.exitUsage ("ERROR: FILE " ++ argN args 0 ++ " CANNOT BE OPENED FOR READING"), fs)
        else
          (ObjOutcome.exitUsage ("ERROR: FILE " ++ thkfile ++ " CANNOT BE OPENED FOR READING"), fs)

/-- Outcome that exits with status 2 after printing the usage text,
i.e. a `usagefailure` call (`objective.py` lines 23-27). -/
def usageExit2 (o : ObjOutcome) : Prop :=
  o.exitCode = 2 ∧ o.printsUsage = true

/-- The one output line on a successful run of `objective.py`:
the label `args[0]` followed by the three formatted averages. -/
def objLine (Mx My : ℕ) (thk pv rv : ℕ → ℕ → ℚ) (label : String) : String :=
  formatLine label (avdiff (scanGrid Mx My thk pv rv))
    (avL2 (scanGrid Mx My thk pv rv)) (av2kL2 (scanGrid Mx My thk pv rv))

/-- Claim C1: on a thickness grid that is everywhere 1/2 (hence no cell
passes `thk > 1.0`), both counts are zero, yet the run still completes
and produces its result line: the averaging of lines 97-99 divides by
a zero count with no guard and no insufficient-data error exists
anywhere in the script. -/
theorem objective_zero_count_no_guard :
    (scanGrid 2 2 (fun _ _ => 0) (fun _ _ => (3 : ℚ)) (fun _ _ => 1)).countvalid = 0 ∧
    (scanGrid 2 2 (fun _ _ => 0) (fun _ _ => (3 : ℚ)) (fun _ _ => 1)).count2k = 0 ∧
    ((objectiveRun ⟨some ([("-v", "acab,smb"), ("-H", "start.nc")], ["foo.nc", "bar.nc"]),
        fun _ => true, 2, 2, fun _ _ => 0, fun _ _ => 3, fun _ _ => 1⟩
        (fun _ => "")).1).isDone = true :=
  ⟨by decide, by decide, by decide⟩

/-- Counterexample to claim C8 as stated: a run with `--help` and a
single positional argument (a wrong positional-argument count, fewer
than 2) exits with status 0, not 2, because the option loop of lines
40-42 exits before the argument-count check of line 44. -/
theorem objective_help_exit_counterexample :
    ((objectiveRun ⟨some ([("--help", "")], ["a.nc"]), fun _ => true, 0, 0,
        fun _ _ => 0, fun _ _ => 0, fun _ _ => 0⟩ (fun _ => "")).1).exitCode = 0 ∧
    (["a.nc"] : List String).length < 2 :=
  ⟨by decide, by decide⟩

/-- Claim C8 (amended): provided `--help`/`--usage` was not passed, the
tool exits with status 2 and prints the usage message on a getopt
failure, a wrong positional-argument count, a `-v` list without exactly
two names, and any of the three input files failing to open. -/
theorem objective_usage_errors (inp : ObjInput) (fs : String → String) :
    (inp.parsed = none → usageExit2 (objectiveRun inp fs).1) ∧
    (∀ opts args, inp.parsed = some (opts, args) → helpRequested opts = false →
      ((args.length < 2 ∨ 3 < args.length → usageExit2 (objectiveRun inp fs).1) ∧
       ((dovarsOf opts).length ≠ 2 → usageExit2 (objectiveRun inp fs).1) ∧
       (∀ tf, lastOpt opts "-H" = some tf →
         (inp.openOK tf = false ∨ inp.openOK (argN args 0) = false ∨
           inp.openOK (argN args 1) = false) →
         usageExit2 (objectiveRun inp fs).1))) := by
  constructor
  · intro hp
    simp [objectiveRun, hp, usageExit2, ObjOutcome.exitCode, ObjOutcome.printsUsage]
  · intro opts args hp hhelp
    refine ⟨?_, ?_, ?_⟩
    · intro hlen
      simp [objectiveRun, hp, hhelp, hlen, usageExit2,
        ObjOutcome.exitCode, ObjOutcome.printsUsage]
    · intro hv
      by_cases hlen : args.length < 2 ∨ 3 < args.length
      · simp [objectiveRun, hp, hhelp, hlen, usageExit2,
          ObjOutcome.exitCode, ObjOutcome.printsUsage]
      · simp [objectiveRun, hp, hhelp, hlen, hv, usageExit2,
          ObjOutcome.exitCode, ObjOutcome.printsUsage]
    · intro tf hH hopen
      by_cases hlen : args.length < 2 ∨ 3 < args.length
      · simp [objectiveRun, hp, hhelp, hlen, usageExit2,
          ObjOutcome.exitCode, ObjOutcome.printsUsage]
      · by_cases hv : (dovarsOf opts).length ≠ 2
        · simp [objectiveRun, hp, hhelp, hlen, hv, usageExit2,
            ObjOutcome.exitCode, ObjOutcome.printsUsage]
        · by_cases o1 : inp.openOK tf = true
          · by_cases o2 : inp.openOK (argN args 0) = true
            · have o3 : inp.openOK (argN args 1) = false := by
                rcases hopen with h | h | h
                · rw [h] at o1; exact absurd o1 (by simp)
                · rw [h] at o2; exact absurd o2 (by simp)
                · exact h
              simp [objectiveRun, hp, hhelp, hlen, hv, hH, o1, o2, o3, usageExit2,
                ObjOutcome.exitCode, ObjOutcome.printsUsage]
            · simp [objectiveRun, hp, hhelp, hlen, hv, hH, o1, o2, usageExit2,
                ObjOutcome.exitCode, ObjOutcome.printsUsage]
          · simp [objectiveRun, hp, hhelp, hlen, hv, hH, o1, usageExit2,
              ObjOutcome.exitCode, ObjOutcome.printsUsage]

theorem objective_usage_errors_witness :
    usageExit2 ((objectiveRun ⟨none, fun _ => true, 0, 0,
        fun _ _ => 0, fun _ _ => 0, fun _ _ => 0⟩ (fun _ => "")).1) ∧
    usageExit2 ((objectiveRun ⟨some ([("-v", "a,b"), ("-H", "t.nc")], ["x.nc"]),
        fun _ => true, 0, 0, fun _ _ => 0, fun _ _ => 0, fun _ _ => 0⟩ (fun _ => "")).1) ∧
    usageExit2 ((objectiveRun ⟨some ([("-H", "t.nc")], ["x.nc", "y.nc"]),
        fun _ => true, 0, 0, fun _ _ => 0, fun _ _ => 0, fun _ _ => 0⟩ (fun _ => "")).1) ∧
    usageExit2 ((objectiveRun ⟨some ([("-v", "a,b"), ("-H", "t.nc")], ["x.nc", "y.nc"]),
        fun _ => false, 0, 0, fun _ _ => 0, fun _ _ => 0, fun _ _ => 0⟩ (fun _ => "")).1) :=
  ⟨(objective_usage_errors ⟨none, fun _ => true, 0, 0,
      fun _ _ => 0, fun _ _ => 0, fun _ _ => 0⟩ (fun _ => "")).1 rfl,
   ((objective_usage_errors ⟨some ([("-v", "a,b"), ("-H", "t.nc")], ["x.nc"]),
      fun _ => true, 0, 0, fun _ _ => 0, fun _ _ => 0, fun _ _ => 0⟩ (fun _ => "")).2
      [("-v", "a,b"), ("-H", "t.nc")] ["x.nc"] rfl (by decide)).1 (by decide),
   (((objective_usage_errors ⟨some ([("-H", "t.nc")], ["x.nc", "y.nc"]),
      fun _ => true, 0, 0, fun _ _ => 0, fun _ _ => 0, fun _ _ => 0⟩ (fun _ => "")).2
      [("-H", "t.nc")] ["x.nc", "y.nc"] rfl (by decide)).2).1 (by decide),
   (((objective_usage_errors ⟨some ([("-v", "a,b"), ("-H", "t.nc")], ["x.nc", "y.nc"]),
      fun _ => false, 0, 0, fun _ _ => 0, fun _ _ => 0, fun _ _ => 0⟩ (fun _ => "")).2
      [("-v", "a,b"), ("-H", "t.nc")] ["x.nc", "y.nc"] rfl (by decide)).2).2
      "t.nc" (by decide) (Or.inl rfl)⟩

/-- Claim C9: on a successful run exactly one output line is produced,
consisting of the file label and the three fixed-precision numbers
separated by spaces; with a third positional argument the line is
appended to that file, preserving all pre-existing content and leaving
every other file unchanged; with only two arguments the results are
printed and no file is touched. -/
theorem objective_success_output (opts : List (String × String)) (args : List String)
    (openOK : String → Bool) (Mx My : ℕ) (thk pv rv : ℕ → ℕ → ℚ)
    (fs : String → String) (tf : String)
    (hhelp : helpRequested opts = false)
    (hv : (dovarsOf opts).length = 2)
    (hH : lastOpt opts "-H" = some tf)
    (o1 : openOK tf = true)
    (o2 : openOK (argN args 0) = true)
    (o3 : openOK (argN args 1) = true) :
    (objLine Mx My thk pv rv (argN args 0)
      = argN args 0 ++ " " ++ fmtF127 (avdiff (scanGrid Mx My thk pv rv)) ++ " "
        ++ fmtF127 (avL2 (scanGrid Mx My thk pv rv)) ++ " "
        ++ fmtF127 (av2kL2 (scanGrid Mx My thk pv rv)) ++ "\n") ∧
    (args.length = 3 →
      objectiveRun ⟨some (opts, args), openOK, Mx, My, thk, pv, rv⟩ fs
        = (ObjOutcome.done (reportLines (scanGrid Mx My thk pv rv))
            (some (argN args 2, objLine Mx My thk pv rv (argN args 0))),
           appendTo fs (argN args 2) (objLine Mx My thk pv rv (argN args 0))) ∧
      appendTo fs (argN args 2) (objLine Mx My thk pv rv (argN args 0)) (argN args 2)
        = fs (argN args 2) ++ objLine Mx My thk pv rv (argN args 0) ∧
      (∀ p, p ≠ argN args 2 →
        appendTo fs (argN args 2) (objLine Mx My thk pv rv (argN args 0)) p = fs p)) ∧
    (args.length = 2 →
      objectiveRun ⟨some (opts, args), openOK, Mx, My, thk, pv, rv⟩ fs
        = (ObjOutcome.done (reportLines (scanGrid Mx My thk pv rv)) none, fs)) := by
  refine ⟨rfl, ?_, ?_⟩
  · intro h3
    have hlen : ¬ (args.length < 2 ∨ 3 < args.length) := by omega
    refine ⟨?_, ?_, ?_⟩
    · simp [objectiveRun, hhelp, hlen, hv, hH, o1, o2, o3, h3, objLine]
    · simp [appendTo]
    · intro p hp
      simp [appendTo, hp]
  · intro h2
    have hlen : ¬ (args.length < 2 ∨ 3 < args.length) := by omega
    have h3 : ¬ (3 ≤ args.length) := by omega
    simp [objectiveRun, hhelp, hlen, hv, hH, o1, o2, o3, h3]

theorem objective_success_output_witness :
    objectiveRun ⟨some ([("-v", "x,y"), ("-H", "t.nc")], ["a.nc", "b.nc", "d.txt"]),
        fun _ => true, 1, 1, fun _ _ => 100, fun _ _ => 3, fun _ _ => 1⟩ (fun _ => "")
      = (ObjOutcome.done
          (reportLines (scanGrid 1 1 (fun _ _ => 100) (fun _ _ => 3) (fun _ _ => 1)))
          (some (argN ["a.nc", "b.nc", "d.txt"] 2,
            objLine 1 1 (fun _ _ => 100) (fun _ _ => 3) (fun _ _ => 1)
              (argN ["a.nc", "b.nc", "d.txt"] 0))),
         appendTo (fun _ => "") (argN ["a.nc", "b.nc", "d.txt"] 2)
           (objLine 1 1 (fun _ _ => 100) (fun _ _ => 3) (fun _ _ => 1)
             (argN ["a.nc", "b.nc", "d.txt"] 0))) :=
  ((objective_success_output [("-v", "x,y"), ("-H", "t.nc")] ["a.nc", "b.nc", "d.txt"]
      (fun _ => true) 1 1 (fun _ _ => 100) (fun _ _ => 3) (fun _ _ => 1) (fun _ => "")
      "t.nc" (by decide) (by decide) (by decide) rfl rfl rfl).2.1 rfl).1

/-! Embedding of `util/create_timeline.py`.

The dateutil rrule frequency constants, the periodicity dictionary of
lines 74-81, the array computations of lines 90-92 and 109-119, and
the order of effects around the output-file open of line 63 are
translated; the calendar library (`rrule`/`utime`) is an oracle that
supplies the list of numeric boundary offsets. -/

/-- The dateutil frequency constants referenced in lines 75-80. -/
def rruleSECONDLY : ℕ := 6

def rruleHOURLY : ℕ := 4

def rruleDAILY : ℕ := 3

def rruleWEEKLY : ℕ := 2

def rruleMONTHLY : ℕ := 1

def rruleYEARLY : ℕ := 0

/-- The periodicity dictionary `pdict` of lines 74-80. -/
def pdict : List (String × ℕ) :=
  [("SECONDLY", rruleSECONDLY), ("HOURLY", rruleHOURLY), ("DAILY", rruleDAILY),
   ("WEEKLY", rruleWEEKLY), ("MONTHLY", rruleMONTHLY), ("YEARLY", rruleYEARLY)]

/-- Python dictionary key lookup, `none` modelling a `KeyError`. -/
def lookupStr : List (String × ℕ) → String → Option ℕ
  | [], _ => none
  | p :: rest, k => if p.1 = k then some p.2 else lookupStr rest k

/-- ASCII uppercasing of one character, as Python `str.upper` acts on
the keyword strings involved here. -/
def upChar (c : Char) : Char :=
  if 'a' ≤ c ∧ c ≤ 'z' then Char.ofNat (c.toNat - 32) else c

/-- Python `options.periodicity.upper()` (line 56). -/
def pyUpper (s : String) : String := String.mk (s.data.map upChar)

/-- The lookup `pdict[periodicity]` of line 81 applied to the
already-uppercased command-line keyword. -/
def periodicityOf (opt : String) : Option ℕ := lookupStr pdict (pyUpper opt)

/-- `np.diff(bnds_interval_since_refdate)` (line 92). -/
def npDiff (b : List ℚ) : List ℚ :=
  List.zipWith (fun x y => y - x) b.dropLast b.tail

/-- Lines 91-92: `bnds_interval[0:-1] + np.diff(bnds_interval)/2`,
the coordinate values written to the `time` variable (line 110). -/
def time_interval_since_refdate (b : List ℚ) : List ℚ :=
  List.zipWith (fun x d => x + d / 2) b.dropLast (npDiff b)

/-- Lines 118-119: column 0 is `bnds_interval[0:-1]`, column 1 is
`bnds_interval[1:]`; row `i` of the `time_bounds` variable. -/
def time_bnds (b : List ℚ) : List (ℚ × ℚ) :=
  List.zipWith (fun x y => (x, y)) b.dropLast b.tail

/-- Oracle inputs of one run of `create_timeline.py`: the raw
periodicity option, the positional `FILE` arguments, and the numeric
boundary offsets the calendar library would return (line 90). -/
structure TLInput where
  periodicity : String
  args : List String
  offsets : List ℚ

/-- Observable outcome of one run of `create_timeline.py`. -/
inductive TLOutcome where
  | indexError
  | keyError (key : String)
  | ok (path : String) (times : List ℚ) (bnds : List (ℚ × ℚ))
deriving DecidableEq

/-- One run of `create_timeline.py`, returning the outcome and whether
the output file was created/truncated.  Mirrors the order of effects:
`infile = args[0]` (line 62, IndexError if absent),
`nc = NC(infile, 'w', ...)` (line 63, creating the file), and only then
`prule = pdict[periodicity]` (line 81, KeyError on unknown keys). -/
def createTimelineRun (inp : TLInput) : TLOutcome × Bool :=
  match inp.args with
  | [] => (TLOutcome.indexError, false)
  | infile :: _ =>
    match lookupStr pdict (pyUpper inp.periodicity) with
    | none => (TLOutcome.keyError (pyUpper inp.periodicity), true)
    | some _ =>
      (TLOutcome.ok infile (time_interval_since_refdate inp.offsets)
        (time_bnds inp.offsets), true)

/-- Keys with a binding in `lookupStr` are exactly the stored keys. -/
theorem lookupStr_isSome_iff (l : List (String × ℕ)) (k : String) :
    (lookupStr l k).isSome = true ↔ k ∈ l.map Prod.fst := by
  induction l with
  | nil => simp [lookupStr]
  | cons p rest ih =>
    by_cases hk : p.1 = k
    · simp [lookupStr, hk]
    · simp [lookupStr, hk, ih, Ne.symm hk]

/-- Claim C2: the periodicity lookup of line 81 has no binding for
FORTNIGHTLY, so the run stops with a plain dictionary KeyError after
the output file is already open (no distinct error type exists in the
script); and a keyword is accepted exactly when its uppercasing is one
of the six stored keys, hence every letter case of the six enumerated
keywords is accepted. -/
theorem unknown_periodicity_lookup :
    periodicityOf "FORTNIGHTLY" = none ∧
    createTimelineRun ⟨"FORTNIGHTLY", ["out.nc"], [0, 1]⟩
      = (TLOutcome.keyError "FORTNIGHTLY", true) ∧
    ∀ s : String, (periodicityOf s).isSome = true ↔
      pyUpper s ∈ ["SECONDLY", "HOURLY", "DAILY", "WEEKLY", "MONTHLY", "YEARLY"] := by
  refine ⟨by decide, by decide, ?_⟩
  intro s
  unfold periodicityOf
  rw [lookupStr_isSome_iff]
  rfl

theorem time_bnds_cons (x y : ℚ) (l : List ℚ) :
    time_bnds (x :: y :: l) = (x, y) :: time_bnds (y :: l) := rfl

theorem time_interval_cons (x y : ℚ) (l : List ℚ) :
    time_interval_since_refdate (x :: y :: l)
      = (x + (y - x) / 2) :: time_interval_since_refdate (y :: l) := rfl

theorem time_bnds_length (b : List ℚ) :
    (time_bnds b).length = b.length - 1 := by
  induction b with
  | nil => rfl
  | cons x t ih =>
    cases t with
    | nil => rfl
    | cons y l =>
      rw [time_bnds_cons]
      simp only [List.length_cons] at ih ⊢
      omega

theorem time_interval_length (b : List ℚ) :
    (time_interval_since_refdate b).length = b.length - 1 := by
  induction b with
  | nil => rfl
  | cons x t ih =>
    cases t with
    | nil => rfl
    | cons y l =>
      rw [time_interval_cons]
      simp only [List.length_cons] at ih ⊢
      omega

theorem time_bnds_getD (b : List ℚ) :
    ∀ i, i + 1 < b.length →
      (time_bnds b).getD i (0, 0) = (b.getD i 0, b.getD (i + 1) 0) := by
  induction b with
  | nil => intro i h; simp at h
  | cons x t ih =>
    cases t with
    | nil => intro i h; simp at h
    | cons y l =>
      intro i h
      cases i with
      | zero => rfl
      | succ i =>
        rw [time_bnds_cons]
        simp only [List.getD_cons_succ]
        exact ih i (by simpa using Nat.lt_of_succ_lt_succ h)

theorem time_interval_getD (b : List ℚ) :
    ∀ i, i + 1 < b.length →
      (time_interval_since_refdate b).getD i 0
        = b.getD i 0 + (b.getD (i + 1) 0 - b.getD i 0) / 2 := by
  induction b with
  | nil => intro i h; simp at h
  | cons x t ih =>
    cases t with
    | nil => intro i h; simp at h
    | cons y l =>
      intro i h
      cases i with
      | zero => rfl
      | succ i =>
        rw [time_interval_cons]
        simp only [List.getD_cons_succ]
        exact ih i (by simpa using Nat.lt_of_succ_lt_succ h)

theorem chain_lt_getD (b : List ℚ) (hc : b.Chain' (fun x y => x < y)) :
    ∀ i, i + 1 < b.length → b.getD i 0 < b.getD (i + 1) 0 := by
  induction b with
  | nil => intro i h; simp at h
  | cons x t ih =>
    cases t with
    | nil => intro i h; simp at h
    | cons y l =>
      rw [List.chain'_cons] at hc
      intro i h
      cases i with
      | zero => exact hc.1
      | succ i =>
        simp only [List.getD_cons_succ]
        exact ih hc.2 i (by simpa using Nat.lt_of_succ_lt_succ h)

/-- Claim C3: for a strictly increasing boundary-offset sequence of
length `n + 1` with `n ≥ 1`, the emitted time coordinate array has
length `n` (one less than the boundary sequence), coordinate `i` lies
strictly between `bounds[i].1` and `bounds[i].2`, and consecutive
bounds rows share their endpoint: `bounds[i].2 = bounds[i+1].1`. -/
theorem timeline_invariants (b : List ℚ) (n : ℕ)
    (hlen : b.length = n + 1) (hn : 1 ≤ n)
    (hmono : b.Chain' (fun x y => x < y)) :
    (time_interval_since_refdate b).length = n ∧
    (time_bnds b).length = n ∧
    (∀ i, i < n →
      ((time_bnds b).getD i (0, 0)).1 < (time_interval_since_refdate b).getD i 0 ∧
      (time_interval_since_refdate b).getD i 0 < ((time_bnds b).getD i (0, 0)).2) ∧
    (∀ i, i + 1 < n →
      ((time_bnds b).getD i (0, 0)).2 = ((time_bnds b).getD (i + 1) (0, 0)).1) := by
  refine ⟨?_, ?_, ?_, ?_⟩
  · rw [time_interval_length, hlen]; omega
  · rw [time_bnds_length, hlen]; omega
  · intro i hi
    have hib : i + 1 < b.length := by omega
    have hlt := chain_lt_getD b hmono i hib
    rw [time_bnds_getD b i hib, time_interval_getD b i hib]
    constructor
    · simp only
      linarith
    · simp only
      linarith
  · intro i hi
    have hib : i + 1 < b.length := by omega
    have hib2 : (i + 1) + 1 < b.length := by omega
    rw [time_bnds_getD b i hib, time_bnds_getD b (i + 1) hib2]

theorem timeline_invariants_witness :
    (time_interval_since_refdate [0, 1, 2]).length = 2 ∧
    ((time_bnds [0, 1, 2]).getD 0 (0, 0)).1
      < (time_interval_since_refdate [0, 1, 2]).getD 0 0 ∧
    ((time_bnds [0, 1, 2]).getD 0 (0, 0)).2
      = ((time_bnds [0, 1, 2]).getD 1 (0, 0)).1 :=
  ⟨(timeline_invariants [0, 1, 2] 2 rfl (by decide) (by norm_num)).1,
   ((timeline_invariants [0, 1, 2] 2 rfl (by decide) (by norm_num)).2.2.1 0
     (by decide)).1,
   (timeline_invariants [0, 1, 2] 2 rfl (by decide) (by norm_num)).2.2.2 0
     (by decide)⟩

/-- Counterexample to claim C7 as stated: a run of
`create_timeline.py` with the unknown periodicity FORTNIGHTLY fails
(uncaught KeyError at line 81), yet the output file has already been
created/truncated by the `NC(infile, 'w', ...)` open of line 63, so a
failing run does leave an output artifact behind. -/
theorem timeline_partial_output_counterexample :
    (createTimelineRun ⟨"FORTNIGHTLY", ["out.nc"], [0, 1]⟩).1
      = TLOutcome.keyError "FORTNIGHTLY" ∧
    (createTimelineRun ⟨"FORTNIGHTLY", ["out.nc"], [0, 1]⟩).2 = true :=
  ⟨by decide, by decide⟩

/-- Claim C7 (amended): every failing run of the difference-statistics
tool leaves the filesystem unchanged; a timeline-generator failure
before the output-file open (missing FILE argument, IndexError) creates
no file; but a timeline-generator data error after the open (unknown
periodicity, KeyError) leaves the created/truncated output file
behind. -/
theorem no_partial_output_cases :
    (∀ (inp : ObjInput) (fs : String → String),
      ((objectiveRun inp fs).1).isFailure = true → (objectiveRun inp fs).2 = fs) ∧
    (∀ inp : TLInput, (createTimelineRun inp).1 = TLOutcome.indexError →
      (createTimelineRun inp).2 = false) ∧
    (∀ (inp : TLInput) (k : String), (createTimelineRun inp).1 = TLOutcome.keyError k →
      (createTimelineRun inp).2 = true) := by
  refine ⟨?_, ?_, ?_⟩
  · intro inp fs h
    obtain ⟨parsed, openOK, Mx, My, thk, pv, rv⟩ := inp
    cases parsed with
    | none => rfl
    | some pa =>
      obtain ⟨opts, args⟩ := pa
      by_cases hh : helpRequested opts = true
      · simp [objectiveRun, hh, ObjOutcome.isFailure] at h
      · by_cases hlen : args.length < 2 ∨ 3 < args.length
        · simp [objectiveRun, hh, hlen]
        · by_cases hv : (dovarsOf opts).length ≠ 2
          · simp [objectiveRun, hh, hlen, hv]
          · cases hH : lastOpt opts "-H" with
            | none => simp [objectiveRun, hh, hlen, hv, hH]
            | some tf =>
              by_cases o1 : openOK tf = true
              · by_cases o2 : openOK (argN args 0) = true
                · by_cases o3 : openOK (argN args 1) = true
                  · by_cases h3 : 3 ≤ args.length
                    · simp [objectiveRun, hh, hlen, hv, hH, o1, o2, o3, h3,
                        ObjOutcome.isFailure] at h
                    · simp [objectiveRun, hh, hlen, hv, hH, o1, o2, o3, h3]
                  · simp [objectiveRun, hh, hlen, hv, hH, o1, o2, o3]
                · simp [objectiveRun, hh, hlen, hv, hH, o1, o2]
              · simp [objectiveRun, hh, hlen, hv, hH, o1]
  · intro inp h
    obtain ⟨p, args, offs⟩ := inp
    cases args with
    | nil => rfl
    | cons infile rest =>
      cases hl : lookupStr pdict (pyUpper p) with
      | none => simp [createTimelineRun, hl] at h
      | some v => simp [createTimelineRun, hl] at h
  · intro inp k h
    obtain ⟨p, args, offs⟩ := inp
    cases args with
    | nil => simp [createTimelineRun] at h
    | cons infile rest =>
      cases hl : lookupStr pdict (pyUpper p) with
      | none => simp [createTimelineRun, hl]
      | some v => simp [createTimelineRun, hl] at h

theorem no_partial_output_cases_witness :
    (objectiveRun ⟨none, fun _ => true, 0, 0, fun _ _ => 0, fun _ _ => 0, fun _ _ => 0⟩
       (fun _ => "")).2 = (fun _ => "") ∧
    (createTimelineRun ⟨"MONTHLY", [], []⟩).2 = false ∧
    (createTimelineRun ⟨"FORTNIGHTLY", ["o.nc"], []⟩).2 = true :=
  ⟨no_partial_output_cases.1 _ _ (by decide),
   no_partial_output_cases.2.1 _ (by decide),
   no_partial_output_cases.2.2 _ "FORTNIGHTLY" (by decide)⟩
